import Mathlib

set_option maxRecDepth 100000

/-!
Shallow embedding of the metric-derivation and tabular-report pipeline of
`src/main.py` (Meta Ads daily report script), together with proofs of the
specification claims about it.

Modelling conventions:
* Python `float` values are modelled as exact rationals (`Rat`).
* A raw API record is a record of optional fields (`Option`): `none` models a
  key that is absent from the Python dict, `some s` a present value (numeric
  fields arrive from the API as strings).
* Python exceptions are modelled with `Except PyErr`: `dict[key]` on a missing
  key raises `KeyError`, `float`/`int` on a malformed string raises
  `ValueError`.
* `float(s)` is modelled by `pyFloat` (plain decimal literals with optional
  sign and at most one dot); `int(s)` by `pyInt` (optional sign, digits only);
  `int(float(s))` truncates toward zero (`ratTrunc`); Python `round(x, 2)` is
  modelled as exact half-even rounding at two decimal places (`round2`).
* `pandas.DataFrame.sort_values("spend", ascending=False)` is modelled by
  `sort_values_spend_desc`: for `ascending=False` pandas' `nargsort`
  reverses the values and their indices *before* the argsort and reverses
  the resulting indexer *after* (the stable-descending fix of pandas issue
  6399), which composes to reverse ∘ stable-ascending-sort ∘ reverse.  The
  model uses a stable ascending insertion sort for the middle step, the
  algorithm numpy runs on short arrays and the tie behaviour pandas'
  stable-descending regression test asserts; the result is sorted by spend
  descending with equal-spend rows in their original encounter order.
* The written CSV file is modelled as the sorted list of rows
  (`(save_to_csv rows).2`); the `Bool` component is the function's return
  value (`False` = nothing written).
-/

namespace MetaReport

/-- Python exception model: the two exception kinds the pipeline code can
raise (`dict[key]` → `KeyError key`, `float`/`int` on a malformed string →
`ValueError` carrying the offending string). -/
inductive PyErr where
  | keyError (key : String)
  | valueError (s : String)
deriving DecidableEq

instance {ε α : Type} [DecidableEq ε] [DecidableEq α] : DecidableEq (Except ε α) := fun x y =>
  match x, y with
  | .error a, .error b =>
    if h : a = b then .isTrue (congrArg Except.error h)
    else .isFalse (fun hc => h (Except.error.inj hc))
  | .error _, .ok _ => .isFalse (fun hc => Except.noConfusion hc)
  | .ok _, .error _ => .isFalse (fun hc => Except.noConfusion hc)
  | .ok a, .ok b =>
    if h : a = b then .isTrue (congrArg Except.ok h)
    else .isFalse (fun hc => h (Except.ok.inj hc))

/-- Numeric value of a list of decimal digit characters. -/
def digitsToNat (cs : List Char) : Nat :=
  cs.foldl (fun n c => 10 * n + (c.toNat - 48)) 0

/-- Rational value of a parsed decimal literal: sign, integer-part digits,
fractional-part digits. -/
def decimalRat (neg : Bool) (ip fp : List Char) : Rat :=
  let mag : Rat := (digitsToNat ip : Rat) + (digitsToNat fp : Rat) / ((10 : Rat) ^ fp.length)
  if neg then -mag else mag

/-- Split an optional leading sign off a character list; `true` means the
literal is negative. -/
def splitSign : List Char → Bool × List Char
  | '-' :: t => (true, t)
  | '+' :: t => (false, t)
  | cs => (false, cs)

/-- Parse a plain decimal literal (optional sign, digits, at most one dot,
at least one digit), the fragment of Python `float()` the API data uses.
Returns `none` on anything malformed. -/
def parseDecimal? (s : String) : Option Rat :=
  let sp := splitSign s.toList
  let ip := sp.2.takeWhile (fun c => c ≠ '.')
  match sp.2.dropWhile (fun c => c ≠ '.') with
  | [] =>
    if !ip.isEmpty && ip.all Char.isDigit then some (decimalRat sp.1 ip []) else none
  | _ :: fp =>
    if !(ip.isEmpty && fp.isEmpty) && ip.all Char.isDigit && fp.all Char.isDigit then
      some (decimalRat sp.1 ip fp)
    else none

/-- Parse a Python `int()` literal: optional sign, one or more digits. -/
def parseInt? (s : String) : Option Int :=
  let sp := splitSign s.toList
  if !sp.2.isEmpty && sp.2.all Char.isDigit then
    some (if sp.1 then -(digitsToNat sp.2 : Int) else (digitsToNat sp.2 : Int))
  else none

/-- Python `float(s)`: a rational on success, `ValueError` on a malformed
string. -/
def pyFloat (s : String) : Except PyErr Rat :=
  match parseDecimal? s with
  | some q => .ok q
  | none => .error (.valueError s)

/-- Python `int(s)`: an integer on success, `ValueError` on a malformed
string. -/
def pyInt (s : String) : Except PyErr Int :=
  match parseInt? s with
  | some n => .ok n
  | none => .error (.valueError s)

/-- Python `float(d.get(k, 0))`: a missing key defaults to `0` without any
parsing; a present value is parsed and may raise. -/
def pyFloatOpt : Option String → Except PyErr Rat
  | none => .ok 0
  | some s => pyFloat s

/-- Python `int(d.get(k, 0))`: a missing key defaults to `0` without any
parsing; a present value is parsed and may raise. -/
def pyIntOpt : Option String → Except PyErr Int
  | none => .ok 0
  | some s => pyInt s

/-- Python `d[k]` on an optional field: `KeyError` when the key is absent. -/
def keyGet (field : Option String) (key : String) : Except PyErr String :=
  match field with
  | some v => .ok v
  | none => .error (.keyError key)

/-- Truncation toward zero, the behaviour of Python `int(float(s))`. -/
def ratTrunc (q : Rat) : Int := Int.tdiv q.num (Int.ofNat q.den)

/-- Round a rational to the nearest integer, ties to even (Python's rounding
mode). -/
def roundHalfEven (q : Rat) : Int :=
  let n := q.floor
  let frac := q - (n : Rat)
  if frac < 1 / 2 then n
  else if 1 / 2 < frac then n + 1
  else if n % 2 = 0 then n else n + 1

/-- Python `round(x, 2)` modelled exactly on rationals. -/
def round2 (q : Rat) : Rat := ((roundHalfEven (q * 100) : Int) : Rat) / 100

/-- One entry of an insight's `actions` / `action_values` lists: a dict with
optional `action_type` and `value` keys. -/
structure ActionEntry where
  action_type : Option String
  value : Option String
deriving DecidableEq

/-- One raw insight record as returned by the ads API: every field may be
absent; numeric fields are numeric strings. -/
structure Insight where
  date_start : Option String
  campaign_id : Option String
  campaign_name : Option String
  adset_id : Option String
  adset_name : Option String
  ad_id : Option String
  ad_name : Option String
  impressions : Option String
  clicks : Option String
  spend : Option String
  actions : Option (List ActionEntry)
  action_values : Option (List ActionEntry)
deriving DecidableEq

/-- Creative metadata, as built by `get_ad_creatives_details`. -/
structure Creative where
  creative_id : Option String
  creative_name : Option String
  image_hash : Option String
  video_id : Option String
  thumbnail_url : Option String
  has_video : Bool
  has_image : Bool
deriving DecidableEq

/-- The empty dict `{}` that `creative_details.get(ad_id, {})` yields for an
ad with no creative entry: every `.get` on it is `None`, i.e. falsy. -/
def emptyCreative : Creative :=
  { creative_id := none, creative_name := none, image_hash := none,
    video_id := none, thumbnail_url := none, has_video := false, has_image := false }

/-- One flattened output row, the dict appended by `process_creative_data`. -/
structure Row where
  date : String
  campaign_id : String
  campaign_name : String
  adset_id : String
  adset_name : String
  ad_id : String
  ad_name : String
  creative_id : Option String
  creative_name : Option String
  creative_type : String
  image_hash : Option String
  video_id : Option String
  spend : Rat
  impressions : Int
  clicks : Int
  conversions : Int
  conversion_value : Rat
  cpa : Rat
  roas : Rat
  ctr : Rat
  cpm : Rat
deriving DecidableEq

/-- The fixed conversion-type set `conv_types` of `calculate_metrics`. -/
def conv_types : List String :=
  ["purchase", "lead", "complete_registration", "add_to_cart", "initiate_checkout"]

/-- `a.get("action_type") in conv_types`: a missing `action_type` is `None`,
which is not in the set. -/
def isConvEntry (a : ActionEntry) : Bool :=
  match a.action_type with
  | some t => conv_types.contains t
  | none => false

/-- The first loop of `calculate_metrics`:
`for a in actions: if a.get("action_type") in conv_types:
conversions += int(float(a.get("value", 0)))`, threading the accumulator. -/
def conv_sum (acc : Int) : List ActionEntry → Except PyErr Int
  | [] => .ok acc
  | a :: rest =>
    if isConvEntry a then
      match pyFloat (a.value.getD "0") with
      | .error e => .error e
      | .ok q => conv_sum (acc + ratTrunc q) rest
    else conv_sum acc rest

/-- The second loop of `calculate_metrics`:
`for v in values: if v.get("action_type") in conv_types:
conv_value += float(v.get("value", 0))`. -/
def conv_value_sum (acc : Rat) : List ActionEntry → Except PyErr Rat
  | [] => .ok acc
  | a :: rest =>
    if isConvEntry a then
      match pyFloat (a.value.getD "0") with
      | .error e => .error e
      | .ok q => conv_value_sum (acc + q) rest
    else conv_value_sum acc rest

/-- `calculate_metrics(insight)` of `src/main.py`: returns
`(conversions, conv_value, round(cpa, 2), round(roas, 2))`. -/
def calculate_metrics (insight : Insight) : Except PyErr (Int × Rat × Rat × Rat) := do
  let spend ← pyFloatOpt insight.spend
  let conversions ← conv_sum 0 (insight.actions.getD [])
  let conv_value ← conv_value_sum 0 (insight.action_values.getD [])
  let cpa : Rat := if conversions ≠ 0 then spend / (conversions : Rat) else 0
  let roas : Rat := if spend ≠ 0 then conv_value / spend else 0
  pure (conversions, conv_value, round2 cpa, round2 roas)

/-- The pure tail of the `process_creative_data` loop body: computes `ctr`,
`cpm` and `ctype` and assembles the 21-field row dict, from the already
parsed and looked-up pieces. -/
def assemble_row (ad_id : String) (c : Creative) (conv : Int) (conv_val cpa roas : Rat)
    (impr clicks : Int) (spend : Rat)
    (date campaign_id campaign_name adset_id adset_name ad_name : String) : Row :=
  let ctr : Rat := if impr ≠ 0 then round2 ((clicks : Rat) / (impr : Rat) * 100) else 0
  let cpm : Rat := if impr ≠ 0 then round2 (spend / (impr : Rat) * 1000) else 0
  let ctype : String := if c.has_video then "Video" else if c.has_image then "Image" else "Unknown"
  { date := date, campaign_id := campaign_id, campaign_name := campaign_name,
    adset_id := adset_id, adset_name := adset_name, ad_id := ad_id, ad_name := ad_name,
    creative_id := c.creative_id, creative_name := c.creative_name, creative_type := ctype,
    image_hash := c.image_hash, video_id := c.video_id,
    spend := spend, impressions := impr, clicks := clicks,
    conversions := conv, conversion_value := conv_val,
    cpa := cpa, roas := roas, ctr := ctr, cpm := cpm }

/-- The body of the `for ins in insights` loop of `process_creative_data`,
in the source's evaluation order: `ins["ad_id"]`,
`creative_details.get(ad_id, {})`, `calculate_metrics(ins)`, the
`int`/`int`/`float` parses, then the row dict whose remaining direct
subscripts (`ins["date_start"]`, …) can raise `KeyError`. -/
def build_row (creative_details : String → Option Creative) (ins : Insight) :
    Except PyErr Row := do
  let ad_id ← keyGet ins.ad_id "ad_id"
  let c := (creative_details ad_id).getD emptyCreative
  let m ← calculate_metrics ins
  let impr ← pyIntOpt ins.impressions
  let clicks ← pyIntOpt ins.clicks
  let spend ← pyFloatOpt ins.spend
  let date ← keyGet ins.date_start "date_start"
  let campaign_id ← keyGet ins.campaign_id "campaign_id"
  let campaign_name ← keyGet ins.campaign_name "campaign_name"
  let adset_id ← keyGet ins.adset_id "adset_id"
  let adset_name ← keyGet ins.adset_name "adset_name"
  let ad_name ← keyGet ins.ad_name "ad_name"
  pure (assemble_row ad_id c m.1 m.2.1 m.2.2.1 m.2.2.2 impr clicks spend
    date campaign_id campaign_name adset_id adset_name ad_name)

/-- `process_creative_data(insights, creative_details)`: builds one row per
insight, in input order; the first exception raised inside the loop
propagates out of the whole function. -/
def process_creative_data (insights : List Insight)
    (creative_details : String → Option Creative) : Except PyErr (List Row) :=
  match insights with
  | [] => .ok []
  | ins :: rest => do
    let row ← build_row creative_details ins
    let rows ← process_creative_data rest creative_details
    pure (row :: rows)

/-- `pandas.DataFrame(rows).sort_values("spend", ascending=False)`: for
`ascending=False`, pandas' `nargsort` reverses the values and their indices
before the argsort and reverses the resulting indexer after (the
stable-descending fix of pandas issue 6399), which composes to
reverse ∘ stable-ascending-sort ∘ reverse.  The middle step is modelled by
a stable ascending insertion sort by spend — the algorithm numpy runs on
short arrays and the tie behaviour pandas' stable-descending regression
test asserts — so the result is sorted by spend descending with equal-spend
rows kept in their original encounter order. -/
def sort_values_spend_desc (rows : List Row) : List Row :=
  (List.insertionSort (fun a b => a.spend ≤ b.spend) rows.reverse).reverse

/-- `save_to_csv(rows, path)` of `src/main.py`: returns `False` and writes
nothing when `rows` is empty, else writes the sorted rows and returns
`True`.  The second component models the written file content. -/
def save_to_csv (rows : List Row) : Bool × Option (List Row) :=
  if rows.isEmpty then (false, none)
  else (true, some (sort_values_spend_desc rows))

/-- Spec-side definition (§4.1/§8 of the spec): the sum of
`trunc(decimal(value))` over a list of action entries, failing on the first
malformed value. -/
def sum_trunc_vals : List ActionEntry → Except PyErr Int
  | [] => .ok 0
  | a :: rest => do
    let q ← pyFloat (a.value.getD "0")
    let s ← sum_trunc_vals rest
    pure (ratTrunc q + s)

/-- Spec-side definition of the conversion count, following the spec's words:
"the sum, over exactly those actions entries whose action_type is in the
fixed conversion-type set, of each entry's value parsed as a decimal and
truncated to an integer". -/
def spec_conversions (actions : List ActionEntry) : Except PyErr Int :=
  sum_trunc_vals (actions.filter isConvEntry)

/-- A numeric field that Python `float(d.get(k, 0))` accepts: absent, or a
well-formed decimal string. -/
def goodFloatField (o : Option String) : Bool :=
  match o with
  | none => true
  | some s => (parseDecimal? s).isSome

/-- A numeric field that Python `int(d.get(k, 0))` accepts: absent, or a
well-formed integer string. -/
def goodIntField (o : Option String) : Bool :=
  match o with
  | none => true
  | some s => (parseInt? s).isSome

/-- `true` iff the computation returned normally, i.e. no modelled Python
exception was raised. -/
def isOk {ε α : Type} : Except ε α → Bool
  | .ok _ => true
  | .error _ => false

/-- The fields `calculate_metrics` touches are each absent or well-formed. -/
abbrev metricsWellFormed (ins : Insight) : Prop :=
  goodFloatField ins.spend = true
    ∧ (∀ a ∈ ins.actions.getD [], goodFloatField a.value = true)
    ∧ (∀ a ∈ ins.action_values.getD [], goodFloatField a.value = true)

/-- The fields the `process_creative_data` loop body touches: the seven
identifier keys taken by direct subscript must be present, and every numeric
field must be absent or well-formed. -/
abbrev rowWellFormed (ins : Insight) : Prop :=
  ins.ad_id.isSome = true ∧ metricsWellFormed ins
    ∧ goodIntField ins.impressions = true ∧ goodIntField ins.clicks = true
    ∧ ins.date_start.isSome = true ∧ ins.campaign_id.isSome = true
    ∧ ins.campaign_name.isSome = true ∧ ins.adset_id.isSome = true
    ∧ ins.adset_name.isSome = true ∧ ins.ad_name.isSome = true

/-! ### Generic `Except` reduction lemmas -/

theorem except_bind_ok {ε α β : Type} (a : α) (f : α → Except ε β) :
    (Except.ok a >>= f) = f a := rfl

theorem except_bind_error {ε α β : Type} (e : ε) (f : α → Except ε β) :
    ((Except.error e : Except ε α) >>= f) = Except.error e := rfl

/-! ### Concrete records used as witnesses -/

/-- The insight record of end-to-end scenario 1 of the spec. -/
def exIns9 : Insight :=
  { date_start := some "2025-01-01", campaign_id := some "c1", campaign_name := some "Camp",
    adset_id := some "s1", adset_name := some "Set", ad_id := some "a1", ad_name := some "Ad",
    impressions := some "1000", clicks := some "20", spend := some "50.00",
    actions := some [{ action_type := some "purchase", value := some "2" }],
    action_values := some [{ action_type := some "purchase", value := some "150.00" }] }

/-- The row `process_creative_data` builds from `exIns9` with an empty
creative lookup. -/
def exRowOut9 : Row :=
  { date := "2025-01-01", campaign_id := "c1", campaign_name := "Camp", adset_id := "s1",
    adset_name := "Set", ad_id := "a1", ad_name := "Ad", creative_id := none,
    creative_name := none, creative_type := "Unknown", image_hash := none, video_id := none,
    spend := 50, impressions := 1000, clicks := 20, conversions := 2, conversion_value := 150,
    cpa := 25, roas := 3, ctr := 2, cpm := 50 }

/-- An insight dict with every key absent. -/
def emptyIns : Insight :=
  { date_start := none, campaign_id := none, campaign_name := none, adset_id := none,
    adset_name := none, ad_id := none, ad_name := none, impressions := none, clicks := none,
    spend := none, actions := none, action_values := none }

/-- An insight whose `spend` key holds a malformed numeric string. -/
def badSpendIns : Insight := { emptyIns with spend := some "abc" }

/-- The actions list of the spec's conversion-sum property:
`[{"purchase","3"},{"view_content","10"}]`. -/
def exInsConv : Insight :=
  { emptyIns with
    actions := some [{ action_type := some "purchase", value := some "3" },
      { action_type := some "view_content", value := some "10" }] }

/-! ### Success shape of `calculate_metrics` -/

theorem calculate_metrics_ok_elim (ins : Insight) (conv : Int) (cv cpa roas : Rat)
    (h : calculate_metrics ins = .ok (conv, cv, cpa, roas)) :
    ∃ spend, pyFloatOpt ins.spend = .ok spend ∧
      conv_sum 0 (ins.actions.getD []) = .ok conv ∧
      conv_value_sum 0 (ins.action_values.getD []) = .ok cv ∧
      cpa = round2 (if conv ≠ 0 then spend / (conv : Rat) else 0) ∧
      roas = round2 (if spend ≠ 0 then cv / spend else 0) := by
  unfold calculate_metrics at h
  cases hs : pyFloatOpt ins.spend with
  | error e => rw [hs, except_bind_error] at h; exact Except.noConfusion h
  | ok s =>
  rw [hs, except_bind_ok] at h
  cases hc : conv_sum 0 (ins.actions.getD []) with
  | error e => rw [hc, except_bind_error] at h; exact Except.noConfusion h
  | ok n =>
  rw [hc, except_bind_ok] at h
  cases hv : conv_value_sum 0 (ins.action_values.getD []) with
  | error e => rw [hv, except_bind_error] at h; exact Except.noConfusion h
  | ok v =>
  rw [hv, except_bind_ok] at h
  have h' : (n, v, round2 (if n ≠ 0 then s / (n : Rat) else 0),
      round2 (if s ≠ 0 then v / s else 0)) = (conv, cv, cpa, roas) := Except.ok.inj h
  injection h' with h1 h'
  injection h' with h2 h'
  injection h' with h3 h4
  subst h1
  subst h2
  exact ⟨s, rfl, rfl, rfl, h3.symm, h4.symm⟩

/-! ### The conversion loop agrees with the spec-side filtered sum -/

theorem conv_sum_eq_spec (l : List ActionEntry) :
    ∀ acc : Int, conv_sum acc l =
      (sum_trunc_vals (l.filter isConvEntry)).map (fun n => acc + n) := by
  induction l with
  | nil => intro acc; simp [conv_sum, sum_trunc_vals, Except.map]
  | cons a rest ih =>
    intro acc
    by_cases hca : isConvEntry a = true
    · rw [List.filter_cons_of_pos hca]
      cases hq : pyFloat (a.value.getD "0") with
      | error e =>
        have hl : conv_sum acc (a :: rest) = .error e := by
          unfold conv_sum; rw [hca, hq]; rfl
        have hr : sum_trunc_vals (a :: rest.filter isConvEntry) = .error e := by
          unfold sum_trunc_vals; rw [hq]; rfl
        rw [hl, hr]; rfl
      | ok q =>
        have hl : conv_sum acc (a :: rest) = conv_sum (acc + ratTrunc q) rest := by
          conv_lhs => unfold conv_sum
          rw [hca, hq]
          rfl
        rw [hl, ih (acc + ratTrunc q)]
        cases hrest : sum_trunc_vals (rest.filter isConvEntry) with
        | error e =>
          have hr : sum_trunc_vals (a :: rest.filter isConvEntry) = .error e := by
            unfold sum_trunc_vals; rw [hq, except_bind_ok, hrest]; rfl
          rw [hr]; rfl
        | ok s =>
          have hr : sum_trunc_vals (a :: rest.filter isConvEntry) = .ok (ratTrunc q + s) := by
            unfold sum_trunc_vals; rw [hq, except_bind_ok, hrest]; rfl
          rw [hr]
          show Except.ok (acc + ratTrunc q + s) = Except.ok (acc + (ratTrunc q + s))
          rw [Int.add_assoc]
    · rw [List.filter_cons_of_neg hca]
      have hl : conv_sum acc (a :: rest) = conv_sum acc rest := by
        conv_lhs => unfold conv_sum
        rw [Bool.not_eq_true] at hca
        rw [hca]
        rfl
      rw [hl]
      exact ih acc

/-- C3: for every insight record accepted by `calculate_metrics`, the
returned `conversions` equals the sum — over exactly those `actions`
entries whose `action_type` lies in the fixed conversion-type set — of each
entry's value parsed as a decimal and truncated to an integer
(`spec_conversions`); entries with any other `action_type` contribute
nothing. -/
theorem conversions_eq_spec_sum (ins : Insight) (conv : Int) (cv cpa roas : Rat)
    (h : calculate_metrics ins = .ok (conv, cv, cpa, roas)) :
    spec_conversions (ins.actions.getD []) = .ok conv := by
  obtain ⟨s, _, hc, -, -, -⟩ := calculate_metrics_ok_elim ins conv cv cpa roas h
  rw [conv_sum_eq_spec _ 0] at hc
  unfold spec_conversions
  cases hrest : sum_trunc_vals ((ins.actions.getD []).filter isConvEntry) with
  | error e => rw [hrest] at hc; exact Except.noConfusion hc
  | ok n =>
    rw [hrest] at hc
    have h2 : 0 + n = conv := Except.ok.inj hc
    rw [show n = conv from by omega]

/-- Witness for C3 at the spec's own example: actions
`[{"purchase","3"},{"view_content","10"}]` give `conversions = 3`, the
`view_content` entry contributing nothing. -/
theorem conversions_eq_spec_sum_witness :
    calculate_metrics exInsConv = .ok (3, 0, 0, 0) ∧
      spec_conversions (exInsConv.actions.getD []) = .ok 3 :=
  ⟨by with_unfolding_all decide,
    conversions_eq_spec_sum exInsConv 3 0 0 0 (by with_unfolding_all decide)⟩

/-- C4: `cpa` equals `spend / conversions` rounded to 2 decimal places when
`conversions > 0` and equals `0` when `conversions = 0`; the zero-divisor
branch is never divided through. -/
theorem cpa_zero_guard (ins : Insight) (conv : Int) (cv cpa roas : Rat) (spend : Rat)
    (h : calculate_metrics ins = .ok (conv, cv, cpa, roas))
    (hs : pyFloatOpt ins.spend = .ok spend) :
    (conv = 0 → cpa = 0) ∧ (0 < conv → cpa = round2 (spend / (conv : Rat))) := by
  obtain ⟨s, hs', -, -, hcpa, -⟩ := calculate_metrics_ok_elim ins conv cv cpa roas h
  rw [hs'] at hs
  have hss : s = spend := Except.ok.inj hs
  subst hss
  constructor
  · intro h0
    rw [hcpa, if_neg (by simp [h0])]
    with_unfolding_all decide
  · intro hpos
    rw [hcpa, if_pos (by omega)]

/-- Witness for C4: scenario-1 input has `conversions = 2 > 0` and
`cpa = 25 = round2 (50 / 2)`. -/
theorem cpa_zero_guard_witness :
    calculate_metrics exIns9 = .ok (2, 150, 25, 3) ∧
      pyFloatOpt exIns9.spend = .ok 50 ∧
      (((2 : Int) = 0 → (25 : Rat) = 0) ∧
        ((0 : Int) < 2 → (25 : Rat) = round2 (50 / ((2 : Int) : Rat)))) :=
  ⟨by with_unfolding_all decide, by with_unfolding_all decide,
    cpa_zero_guard exIns9 2 150 25 3 50 (by with_unfolding_all decide)
      (by with_unfolding_all decide)⟩

/-- C5: `roas` equals `conversion_value / spend` rounded to 2 decimal places
when `spend > 0` and equals `0` when `spend = 0`. -/
theorem roas_zero_guard (ins : Insight) (conv : Int) (cv cpa roas : Rat) (spend : Rat)
    (h : calculate_metrics ins = .ok (conv, cv, cpa, roas))
    (hs : pyFloatOpt ins.spend = .ok spend) :
    (spend = 0 → roas = 0) ∧ (0 < spend → roas = round2 (cv / spend)) := by
  obtain ⟨s, hs', -, -, -, hroas⟩ := calculate_metrics_ok_elim ins conv cv cpa roas h
  rw [hs'] at hs
  have hss : s = spend := Except.ok.inj hs
  subst hss
  constructor
  · intro h0
    rw [hroas, if_neg (by simp [h0])]
    with_unfolding_all decide
  · intro hpos
    rw [hroas, if_pos (ne_of_gt hpos)]

/-- Witness for C5: scenario-1 input has `spend = 50 > 0` and
`roas = 3 = round2 (150 / 50)`. -/
theorem roas_zero_guard_witness :
    calculate_metrics exIns9 = .ok (2, 150, 25, 3) ∧
      pyFloatOpt exIns9.spend = .ok 50 ∧
      (((50 : Rat) = 0 → (3 : Rat) = 0) ∧
        ((0 : Rat) < 50 → (3 : Rat) = round2 (150 / 50))) :=
  ⟨by with_unfolding_all decide, by with_unfolding_all decide,
    roas_zero_guard exIns9 2 150 25 3 50 (by with_unfolding_all decide)
      (by with_unfolding_all decide)⟩

/-- C9: end-to-end scenario 1: the insight with impressions 1000, clicks 20,
spend 50.00, actions `[{purchase,"2"}]`, action_values
`[{purchase,"150.00"}]` produces exactly one row with `ctr = 2`, `cpm = 50`,
`conversions = 2`, `conversion_value = 150`, `cpa = 25`, `roas = 3`. -/
theorem end_to_end_scenario_one :
    process_creative_data [exIns9] (fun _ => none) = .ok [exRowOut9] ∧
      exRowOut9.ctr = 2 ∧ exRowOut9.cpm = 50 ∧ exRowOut9.conversions = 2 ∧
      exRowOut9.conversion_value = 150 ∧ exRowOut9.cpa = 25 ∧ exRowOut9.roas = 3 := by
  with_unfolding_all decide

/-! ### Field-level success lemmas -/

theorem pyFloatOpt_ok_of_good (o : Option String) (h : goodFloatField o = true) :
    ∃ q, pyFloatOpt o = .ok q := by
  cases o with
  | none => exact ⟨0, rfl⟩
  | some s =>
    have h' : (parseDecimal? s).isSome = true := h
    cases hp : parseDecimal? s with
    | none => rw [hp] at h'; exact Bool.noConfusion h'
    | some q =>
      refine ⟨q, ?_⟩
      simp only [pyFloatOpt, pyFloat, hp]

theorem pyIntOpt_ok_of_good (o : Option String) (h : goodIntField o = true) :
    ∃ n, pyIntOpt o = .ok n := by
  cases o with
  | none => exact ⟨0, rfl⟩
  | some s =>
    have h' : (parseInt? s).isSome = true := h
    cases hp : parseInt? s with
    | none => rw [hp] at h'; exact Bool.noConfusion h'
    | some n =>
      refine ⟨n, ?_⟩
      simp only [pyIntOpt, pyInt, hp]

theorem pyFloat_getD_ok (o : Option String) (h : goodFloatField o = true) :
    ∃ q, pyFloat (o.getD "0") = .ok q := by
  cases o with
  | none => exact ⟨decimalRat false ['0'] [], rfl⟩
  | some s =>
    have h' : (parseDecimal? s).isSome = true := h
    cases hp : parseDecimal? s with
    | none => rw [hp] at h'; exact Bool.noConfusion h'
    | some q =>
      refine ⟨q, ?_⟩
      simp only [Option.getD_some, pyFloat, hp]

theorem conv_sum_ok (l : List ActionEntry)
    (h : ∀ a ∈ l, goodFloatField a.value = true) :
    ∀ acc, ∃ n, conv_sum acc l = .ok n := by
  induction l with
  | nil => exact fun acc => ⟨acc, rfl⟩
  | cons a rest ih =>
    intro acc
    have ha := h a (List.mem_cons_self a rest)
    have hrest := fun x hx => h x (List.mem_cons_of_mem a hx)
    by_cases hca : isConvEntry a = true
    · obtain ⟨q, hq⟩ := pyFloat_getD_ok a.value ha
      obtain ⟨n, hn⟩ := ih hrest (acc + ratTrunc q)
      refine ⟨n, ?_⟩
      conv_lhs => unfold conv_sum
      rw [hca, hq]
      show conv_sum (acc + ratTrunc q) rest = .ok n
      exact hn
    · obtain ⟨n, hn⟩ := ih hrest acc
      refine ⟨n, ?_⟩
      conv_lhs => unfold conv_sum
      rw [Bool.not_eq_true] at hca
      rw [hca]
      show conv_sum acc rest = .ok n
      exact hn

theorem conv_value_sum_ok (l : List ActionEntry)
    (h : ∀ a ∈ l, goodFloatField a.value = true) :
    ∀ acc, ∃ v, conv_value_sum acc l = .ok v := by
  induction l with
  | nil => exact fun acc => ⟨acc, rfl⟩
  | cons a rest ih =>
    intro acc
    have ha := h a (List.mem_cons_self a rest)
    have hrest := fun x hx => h x (List.mem_cons_of_mem a hx)
    by_cases hca : isConvEntry a = true
    · obtain ⟨q, hq⟩ := pyFloat_getD_ok a.value ha
      obtain ⟨v, hv⟩ := ih hrest (acc + q)
      refine ⟨v, ?_⟩
      conv_lhs => unfold conv_value_sum
      rw [hca, hq]
      show conv_value_sum (acc + q) rest = .ok v
      exact hv
    · obtain ⟨v, hv⟩ := ih hrest acc
      refine ⟨v, ?_⟩
      conv_lhs => unfold conv_value_sum
      rw [Bool.not_eq_true] at hca
      rw [hca]
      show conv_value_sum acc rest = .ok v
      exact hv

theorem calculate_metrics_ok_of_wf (ins : Insight) (h : metricsWellFormed ins) :
    ∃ m, calculate_metrics ins = .ok m := by
  obtain ⟨s, hs⟩ := pyFloatOpt_ok_of_good ins.spend h.1
  obtain ⟨n, hn⟩ := conv_sum_ok _ h.2.1 0
  obtain ⟨v, hv⟩ := conv_value_sum_ok _ h.2.2 0
  refine ⟨(n, v, round2 (if n ≠ 0 then s / (n : Rat) else 0),
    round2 (if s ≠ 0 then v / s else 0)), ?_⟩
  unfold calculate_metrics
  simp only [hs, hn, hv, except_bind_ok]
  rfl

/-! ### Success shape of `build_row` -/

theorem build_row_ok_elim (cd : String → Option Creative) (ins : Insight) (row : Row)
    (h : build_row cd ins = .ok row) :
    ∃ a m impr clicks spend date cid cnm sid snm anm,
      ins.ad_id = some a ∧ calculate_metrics ins = .ok m ∧
      pyIntOpt ins.impressions = .ok impr ∧ pyIntOpt ins.clicks = .ok clicks ∧
      pyFloatOpt ins.spend = .ok spend ∧
      ins.date_start = some date ∧ ins.campaign_id = some cid ∧ ins.campaign_name = some cnm ∧
      ins.adset_id = some sid ∧ ins.adset_name = some snm ∧ ins.ad_name = some anm ∧
      row = assemble_row a ((cd a).getD emptyCreative) m.1 m.2.1 m.2.2.1 m.2.2.2
        impr clicks spend date cid cnm sid snm anm := by
  unfold build_row at h
  cases hid : ins.ad_id with
  | none => rw [hid] at h; exact Except.noConfusion h
  | some a =>
  rw [hid] at h
  simp only [keyGet, except_bind_ok] at h
  cases hm : calculate_metrics ins with
  | error e => simp only [hm, except_bind_error] at h; exact Except.noConfusion h
  | ok m =>
  simp only [hm, except_bind_ok] at h
  cases hi : pyIntOpt ins.impressions with
  | error e => simp only [hi, except_bind_error] at h; exact Except.noConfusion h
  | ok impr =>
  simp only [hi, except_bind_ok] at h
  cases hc2 : pyIntOpt ins.clicks with
  | error e => simp only [hc2, except_bind_error] at h; exact Except.noConfusion h
  | ok clicks =>
  simp only [hc2, except_bind_ok] at h
  cases hsp : pyFloatOpt ins.spend with
  | error e => simp only [hsp, except_bind_error] at h; exact Except.noConfusion h
  | ok spend =>
  simp only [hsp, except_bind_ok] at h
  cases h1 : ins.date_start with
  | none => simp only [h1, keyGet, except_bind_error] at h; exact Except.noConfusion h
  | some d =>
  simp only [h1, keyGet, except_bind_ok] at h
  cases h2 : ins.campaign_id with
  | none => simp only [h2, keyGet, except_bind_error] at h; exact Except.noConfusion h
  | some ci =>
  simp only [h2, keyGet, except_bind_ok] at h
  cases h3 : ins.campaign_name with
  | none => simp only [h3, keyGet, except_bind_error] at h; exact Except.noConfusion h
  | some cn =>
  simp only [h3, keyGet, except_bind_ok] at h
  cases h4 : ins.adset_id with
  | none => simp only [h4, keyGet, except_bind_error] at h; exact Except.noConfusion h
  | some si =>
  simp only [h4, keyGet, except_bind_ok] at h
  cases h5 : ins.adset_name with
  | none => simp only [h5, keyGet, except_bind_error] at h; exact Except.noConfusion h
  | some sn =>
  simp only [h5, keyGet, except_bind_ok] at h
  cases h6 : ins.ad_name with
  | none => simp only [h6, keyGet, except_bind_error] at h; exact Except.noConfusion h
  | some an =>
  simp only [h6, keyGet, except_bind_ok] at h
  exact ⟨a, m, impr, clicks, spend, d, ci, cn, si, sn, an, rfl, rfl, rfl, rfl, rfl,
    rfl, rfl, rfl, rfl, rfl, rfl, (Except.ok.inj h).symm⟩

theorem build_row_ok_of_wf (cd : String → Option Creative) (ins : Insight)
    (h : rowWellFormed ins) : isOk (build_row cd ins) = true := by
  obtain ⟨had, hmet, himp, hclk, hds, hci, hcn, hsi, hsn, han⟩ := h
  obtain ⟨a, hida⟩ := Option.isSome_iff_exists.mp had
  obtain ⟨m, hm⟩ := calculate_metrics_ok_of_wf ins hmet
  obtain ⟨impr, hi⟩ := pyIntOpt_ok_of_good ins.impressions himp
  obtain ⟨clicks, hc2⟩ := pyIntOpt_ok_of_good ins.clicks hclk
  obtain ⟨spend, hsp⟩ := pyFloatOpt_ok_of_good ins.spend hmet.1
  obtain ⟨d, hd⟩ := Option.isSome_iff_exists.mp hds
  obtain ⟨ci, hci2⟩ := Option.isSome_iff_exists.mp hci
  obtain ⟨cn, hcn2⟩ := Option.isSome_iff_exists.mp hcn
  obtain ⟨si, hsi2⟩ := Option.isSome_iff_exists.mp hsi
  obtain ⟨sn, hsn2⟩ := Option.isSome_iff_exists.mp hsn
  obtain ⟨an, han2⟩ := Option.isSome_iff_exists.mp han
  unfold build_row
  simp only [hida, hd, hci2, hcn2, hsi2, hsn2, han2, keyGet, hm, hi, hc2, hsp, except_bind_ok]
  rfl

theorem process_creative_data_ok_of_wf (insights : List Insight)
    (cd : String → Option Creative) (hall : ∀ i ∈ insights, rowWellFormed i) :
    isOk (process_creative_data insights cd) = true := by
  induction insights with
  | nil => rfl
  | cons ins rest ih =>
    have h1 := hall ins (List.mem_cons_self ins rest)
    have hrest := fun i hi => hall i (List.mem_cons_of_mem ins hi)
    have hb := build_row_ok_of_wf cd ins h1
    cases hbr : build_row cd ins with
    | error e => rw [hbr] at hb; exact Bool.noConfusion hb
    | ok row =>
      have hp := ih hrest
      cases hpr : process_creative_data rest cd with
      | error e => rw [hpr] at hp; exact Bool.noConfusion hp
      | ok rows =>
        unfold process_creative_data
        simp only [hbr, hpr, except_bind_ok]
        rfl

/-- C1 (amended): `calculate_metrics` raises no exception on any record
whose numeric fields are each absent or well-formed numeric strings (absent
fields degrade to the defaults 0 / empty / "Unknown"), and
`process_creative_data` raises none provided additionally the seven
identifier fields read by direct subscript (`ad_id`, `date_start`,
`campaign_id`, `campaign_name`, `adset_id`, `adset_name`, `ad_name`) are
present; a missing identifier key raises `KeyError` and a malformed numeric
string raises `ValueError`, so the unconditional claim fails. -/
theorem no_exception_on_wellformed_records (insights : List Insight)
    (cd : String → Option Creative) (ins0 : Insight)
    (hall : ∀ i ∈ insights, rowWellFormed i) (h0 : metricsWellFormed ins0) :
    isOk (process_creative_data insights cd) = true ∧
      isOk (calculate_metrics ins0) = true := by
  refine ⟨process_creative_data_ok_of_wf insights cd hall, ?_⟩
  obtain ⟨m, hm⟩ := calculate_metrics_ok_of_wf ins0 h0
  rw [hm]
  rfl

/-- Witness for C1 (amended): the scenario-1 record is well-formed and the
pipeline raises nothing on it. -/
theorem no_exception_on_wellformed_records_witness :
    rowWellFormed exIns9 ∧ metricsWellFormed exIns9 ∧
      (isOk (process_creative_data [exIns9] (fun _ => none)) = true ∧
        isOk (calculate_metrics exIns9) = true) :=
  ⟨by decide, by decide,
    no_exception_on_wellformed_records [exIns9] (fun _ => none) exIns9
      (by intro i hi; rw [List.mem_singleton] at hi; subst hi; decide) (by decide)⟩

/-- Counterexample to C1 as stated: on a record with every key missing,
`process_creative_data` raises `KeyError "ad_id"` (the direct subscript
`ins["ad_id"]`), and on a record whose `spend` is the malformed string
`"abc"`, `calculate_metrics` raises `ValueError` — the functions do not
degrade every field access to a default. -/
theorem missing_or_malformed_fields_raise :
    process_creative_data [emptyIns] (fun _ => none) = .error (PyErr.keyError "ad_id")
      ∧ isOk (calculate_metrics badSpendIns) = false :=
  ⟨rfl, rfl⟩

/-- C6: in every successfully built row, `ctr = round2(clicks/impressions ×
100)` and `cpm = round2(spend/impressions × 1000)` when `impressions > 0`,
and `ctr = cpm = 0` when `impressions = 0`, whatever the clicks and spend. -/
theorem ctr_cpm_formulas (cd : String → Option Creative) (ins : Insight) (row : Row)
    (h : build_row cd ins = .ok row) :
    (row.impressions = 0 → row.ctr = 0 ∧ row.cpm = 0)
    ∧ (0 < row.impressions →
        row.ctr = round2 ((row.clicks : Rat) / (row.impressions : Rat) * 100)
        ∧ row.cpm = round2 (row.spend / (row.impressions : Rat) * 1000)) := by
  obtain ⟨a, m, impr, clicks, spend, d, ci, cn, si, sn, an,
    hid, hm, hi, hc2, hsp, h1, h2, h3, h4, h5, h6, hrow⟩ := build_row_ok_elim cd ins row h
  subst hrow
  constructor
  · intro h0
    simp only [assemble_row] at h0
    subst h0
    simp [assemble_row]
  · intro hpos
    simp only [assemble_row] at hpos ⊢
    constructor
    · rw [if_pos (by omega : impr ≠ 0)]
    · rw [if_pos (by omega : impr ≠ 0)]

/-- Witness for C6 at the scenario-1 row (impressions 1000 > 0). -/
theorem ctr_cpm_formulas_witness :
    build_row (fun _ => none) exIns9 = .ok exRowOut9 ∧
      ((exRowOut9.impressions = 0 → exRowOut9.ctr = 0 ∧ exRowOut9.cpm = 0)
        ∧ (0 < exRowOut9.impressions →
            exRowOut9.ctr =
              round2 ((exRowOut9.clicks : Rat) / (exRowOut9.impressions : Rat) * 100)
            ∧ exRowOut9.cpm =
              round2 (exRowOut9.spend / (exRowOut9.impressions : Rat) * 1000))) :=
  ⟨by with_unfolding_all decide, ctr_cpm_formulas (fun _ => none) exIns9 exRowOut9
    (by with_unfolding_all decide)⟩

/-- C7: the `creative_type` of a built row is "Video" when the joined
creative has `has_video` (regardless of `has_image`), else "Image" when it
has `has_image`, else "Unknown"; and when the `ad_id` is absent from the
creative lookup the row gets `creative_id = none` and
`creative_type = "Unknown"`. -/
theorem creative_type_priority (cd : String → Option Creative) (ins : Insight) (row : Row)
    (a : String) (h : build_row cd ins = .ok row) (ha : ins.ad_id = some a) :
    (((cd a).getD emptyCreative).has_video = true → row.creative_type = "Video")
    ∧ (((cd a).getD emptyCreative).has_video = false →
        ((cd a).getD emptyCreative).has_image = true → row.creative_type = "Image")
    ∧ (((cd a).getD emptyCreative).has_video = false →
        ((cd a).getD emptyCreative).has_image = false → row.creative_type = "Unknown")
    ∧ (cd a = none → row.creative_id = none ∧ row.creative_type = "Unknown") := by
  obtain ⟨a', m, impr, clicks, spend, d, ci, cn, si, sn, an,
    hid, hm, hi, hc2, hsp, h1, h2, h3, h4, h5, h6, hrow⟩ := build_row_ok_elim cd ins row h
  have haa : a' = a := by rw [ha] at hid; exact (Option.some.inj hid).symm
  subst haa
  subst hrow
  refine ⟨fun hv => ?_, fun hv hi2 => ?_, fun hv hi2 => ?_,
    fun hnone => ⟨?_, ?_⟩⟩
  · simp [assemble_row, hv]
  · simp [assemble_row, hv, hi2]
  · simp [assemble_row, hv, hi2]
  · simp [assemble_row, hnone, emptyCreative]
  · simp [assemble_row, hnone, emptyCreative]

/-- A creative with both media flags set: video must win. -/
def exCreativeVid : Creative :=
  { creative_id := some "cr1", creative_name := some "Vid", image_hash := some "hash",
    video_id := some "v1", thumbnail_url := none, has_video := true, has_image := true }

/-- A creative lookup mapping the scenario-1 ad to `exCreativeVid`. -/
def exLookupVid : String → Option Creative :=
  fun a => if a = "a1" then some exCreativeVid else none

/-- The row built from `exIns9` under `exLookupVid`. -/
def exRowVid9 : Row :=
  { date := "2025-01-01", campaign_id := "c1", campaign_name := "Camp", adset_id := "s1",
    adset_name := "Set", ad_id := "a1", ad_name := "Ad", creative_id := some "cr1",
    creative_name := some "Vid", creative_type := "Video", image_hash := some "hash",
    video_id := some "v1", spend := 50, impressions := 1000, clicks := 20, conversions := 2,
    conversion_value := 150, cpa := 25, roas := 3, ctr := 2, cpm := 50 }

/-- Witness for C7: with both `has_video` and `has_image` set, the built
row's type is "Video". -/
theorem creative_type_priority_witness :
    build_row exLookupVid exIns9 = .ok exRowVid9 ∧ exIns9.ad_id = some "a1" ∧
      ((((exLookupVid "a1").getD emptyCreative).has_video = true →
          exRowVid9.creative_type = "Video")
        ∧ (((exLookupVid "a1").getD emptyCreative).has_video = false →
            ((exLookupVid "a1").getD emptyCreative).has_image = true →
            exRowVid9.creative_type = "Image")
        ∧ (((exLookupVid "a1").getD emptyCreative).has_video = false →
            ((exLookupVid "a1").getD emptyCreative).has_image = false →
            exRowVid9.creative_type = "Unknown")
        ∧ (exLookupVid "a1" = none →
            exRowVid9.creative_id = none ∧ exRowVid9.creative_type = "Unknown")) :=
  ⟨by with_unfolding_all decide, rfl,
    creative_type_priority exLookupVid exIns9 exRowVid9 "a1"
      (by with_unfolding_all decide) rfl⟩

/-- C10: a successful `process_creative_data` returns exactly one row per
insight record — no record dropped or duplicated — and the i-th output row
is built from the i-th input record, so input order is preserved. -/
theorem one_row_per_insight (insights : List Insight) (cd : String → Option Creative)
    (rows : List Row) (i : Nat) (h : process_creative_data insights cd = .ok rows) :
    rows.length = insights.length ∧
      (insights[i]?).map (build_row cd) = (rows[i]?).map Except.ok := by
  induction insights generalizing rows i with
  | nil =>
    have hr : rows = [] := (Except.ok.inj h).symm
    subst hr
    exact ⟨rfl, rfl⟩
  | cons ins rest ih =>
    cases hbr : build_row cd ins with
    | error e =>
      unfold process_creative_data at h
      rw [hbr, except_bind_error] at h
      exact Except.noConfusion h
    | ok row =>
      cases hpr : process_creative_data rest cd with
      | error e =>
        unfold process_creative_data at h
        simp only [hbr, hpr, except_bind_ok, except_bind_error] at h
        exact Except.noConfusion h
      | ok rows' =>
        unfold process_creative_data at h
        simp only [hbr, hpr, except_bind_ok] at h
        have hr : rows = row :: rows' := (Except.ok.inj h).symm
        subst hr
        refine ⟨by simp [(ih rows' 0 hpr).1], ?_⟩
        cases i with
        | zero => simp [hbr]
        | succ n =>
          simp only [List.getElem?_cons_succ]
          exact (ih rows' n hpr).2

/-- Witness for C10 at the scenario-1 input. -/
theorem one_row_per_insight_witness :
    process_creative_data [exIns9] (fun _ => none) = .ok [exRowOut9] ∧
      (([exRowOut9] : List Row).length = ([exIns9] : List Insight).length ∧
        (([exIns9] : List Insight)[0]?).map (build_row (fun _ => none)) =
          (([exRowOut9] : List Row)[0]?).map Except.ok) :=
  ⟨by with_unfolding_all decide,
    one_row_per_insight [exIns9] (fun _ => none) [exRowOut9] 0
      (by with_unfolding_all decide)⟩

/-! ### Export sorting -/

instance : IsTotal Row (fun a b => a.spend ≤ b.spend) :=
  ⟨fun a b => le_total a.spend b.spend⟩

instance : IsTrans Row (fun a b => a.spend ≤ b.spend) :=
  ⟨fun _ _ _ hab hbc => le_trans hab hbc⟩

/-- A row with spend 5 encountered first. -/
def exRowA : Row :=
  { date := "d", campaign_id := "c", campaign_name := "cn", adset_id := "s",
    adset_name := "sn", ad_id := "A", ad_name := "an", creative_id := none,
    creative_name := none, creative_type := "Unknown", image_hash := none, video_id := none,
    spend := 5, impressions := 0, clicks := 0, conversions := 0, conversion_value := 0,
    cpa := 0, roas := 0, ctr := 0, cpm := 0 }

/-- A row with the same spend 5 encountered second. -/
def exRowB : Row :=
  { date := "d", campaign_id := "c", campaign_name := "cn", adset_id := "s",
    adset_name := "sn", ad_id := "B", ad_name := "an", creative_id := none,
    creative_name := none, creative_type := "Unknown", image_hash := none, video_id := none,
    spend := 5, impressions := 0, clicks := 0, conversions := 0, conversion_value := 0,
    cpa := 0, roas := 0, ctr := 0, cpm := 0 }

/-- A row with the larger spend 7. -/
def exRowC : Row :=
  { date := "d", campaign_id := "c", campaign_name := "cn", adset_id := "s",
    adset_name := "sn", ad_id := "C", ad_name := "an", creative_id := none,
    creative_name := none, creative_type := "Unknown", image_hash := none, video_id := none,
    spend := 7, impressions := 0, clicks := 0, conversions := 0, conversion_value := 0,
    cpa := 0, roas := 0, ctr := 0, cpm := 0 }

theorem filter_orderedInsert (v : Rat) (a : Row) (s : List Row) :
    (List.orderedInsert (fun x y => x.spend ≤ y.spend) a s).filter
        (fun r => decide (r.spend = v))
    = if a.spend = v
      then a :: s.filter (fun r => decide (r.spend = v))
      else s.filter (fun r => decide (r.spend = v)) := by
  induction s with
  | nil =>
    by_cases hp : a.spend = v <;> simp [List.orderedInsert, hp]
  | cons b t ih =>
    by_cases hab : a.spend ≤ b.spend
    · have hoi : List.orderedInsert (fun x y : Row => x.spend ≤ y.spend) a (b :: t)
          = a :: b :: t := by
        simp [List.orderedInsert, hab]
      rw [hoi]
      by_cases hp : a.spend = v <;> simp [List.filter_cons, hp]
    · have hoi : List.orderedInsert (fun x y : Row => x.spend ≤ y.spend) a (b :: t)
          = b :: List.orderedInsert (fun x y : Row => x.spend ≤ y.spend) a t := by
        simp [List.orderedInsert, hab]
      rw [hoi]
      have hba : b.spend < a.spend := not_le.mp hab
      by_cases hp : a.spend = v
      · have hbv : ¬ b.spend = v := by
          intro hb
          rw [hb, ← hp] at hba
          exact lt_irrefl _ hba
        simp [List.filter_cons, hp, hbv, ih]
      · simp [List.filter_cons, hp, ih]

theorem filter_insertionSort_spend (v : Rat) (l : List Row) :
    (List.insertionSort (fun x y => x.spend ≤ y.spend) l).filter
        (fun r => decide (r.spend = v))
    = l.filter (fun r => decide (r.spend = v)) := by
  induction l with
  | nil => rfl
  | cons a t ih =>
    simp only [List.insertionSort]
    rw [filter_orderedInsert]
    by_cases hp : a.spend = v
    · rw [if_pos hp, ih, List.filter_cons]
      simp [hp]
    · rw [if_neg hp, ih, List.filter_cons]
      simp [hp]

theorem filter_sort_values_spend_desc (v : Rat) (rows : List Row) :
    (sort_values_spend_desc rows).filter (fun r => decide (r.spend = v))
    = rows.filter (fun r => decide (r.spend = v)) := by
  unfold sort_values_spend_desc
  rw [List.filter_reverse, filter_insertionSort_spend, List.filter_reverse,
    List.reverse_reverse]

/-- C2: every written report is sorted by spend descending — for all
positions i < j of the written content, row i's spend ≥ row j's spend — and
the sort is stable: for every spend value v, the written rows with spend v
are exactly the input rows with spend v in their original encounter order
(pandas' stable-descending reversal scheme preserves tie order). -/
theorem export_sorted_spend_desc_stable (rows out : List Row)
    (h : (save_to_csv rows).2 = some out) (i j : Fin out.length) (hij : i < j) (v : Rat) :
    (out.get j).spend ≤ (out.get i).spend
    ∧ out.filter (fun r => decide (r.spend = v)) =
        rows.filter (fun r => decide (r.spend = v)) := by
  unfold save_to_csv at h
  cases hrow : rows.isEmpty with
  | true =>
    rw [hrow] at h
    have h' : (none : Option (List Row)) = some out := h
    exact Option.noConfusion h'
  | false =>
    rw [hrow] at h
    have h' : (some (sort_values_spend_desc rows) : Option (List Row)) = some out := h
    have hout : out = sort_values_spend_desc rows := (Option.some.inj h').symm
    subst hout
    refine ⟨?_, filter_sort_values_spend_desc v rows⟩
    have hs : List.Sorted (fun a b : Row => a.spend ≤ b.spend)
        (List.insertionSort (fun a b : Row => a.spend ≤ b.spend) rows.reverse) :=
      List.sorted_insertionSort _ rows.reverse
    have hp : (sort_values_spend_desc rows).Pairwise
        (fun a b : Row => b.spend ≤ a.spend) := by
      unfold sort_values_spend_desc
      exact List.pairwise_reverse.mpr hs
    exact List.pairwise_iff_get.mp hp i j hij

/-- Witness for C2: exporting `[exRowA, exRowB, exRowC]` (spends 5, 5, 7)
writes `[exRowC, exRowA, exRowB]` — spend descending, with the equal-spend
rows A and B in their original encounter order — position 1's spend ≤
position 0's, and the spend-5 rows of the output are those of the input in
order. -/
theorem export_sorted_spend_desc_stable_witness :
    (save_to_csv [exRowA, exRowB, exRowC]).2 = some [exRowC, exRowA, exRowB] ∧
      ((([exRowC, exRowA, exRowB] : List Row).get ⟨1, by decide⟩).spend ≤
          (([exRowC, exRowA, exRowB] : List Row).get ⟨0, by decide⟩).spend
        ∧ ([exRowC, exRowA, exRowB] : List Row).filter (fun r => decide (r.spend = 5)) =
            ([exRowA, exRowB, exRowC] : List Row).filter (fun r => decide (r.spend = 5))) :=
  ⟨by with_unfolding_all decide,
    export_sorted_spend_desc_stable [exRowA, exRowB, exRowC] [exRowC, exRowA, exRowB]
      (by with_unfolding_all decide) ⟨0, by decide⟩ ⟨1, by decide⟩ (by decide) 5⟩

/-- C8: an empty insight sequence assembles to an empty report (success,
not an error); exporting an empty report returns the `False`
nothing-written signal and creates no file; and a non-empty report is
always written (return `True`, sorted content written). -/
theorem empty_report_noop (cd : String → Option Creative) (rows : List Row)
    (hne : rows ≠ []) :
    process_creative_data [] cd = .ok []
    ∧ save_to_csv [] = (false, none)
    ∧ ((save_to_csv rows).1 = true
        ∧ (save_to_csv rows).2 = some (sort_values_spend_desc rows)) := by
  have he : rows.isEmpty = false := by
    cases rows with
    | nil => exact absurd rfl hne
    | cons a l => rfl
  refine ⟨rfl, rfl, ?_, ?_⟩
  · unfold save_to_csv
    rw [he]
    rfl
  · unfold save_to_csv
    rw [he]
    rfl

/-- Witness for C8 with the non-empty report `[exRowA]`. -/
theorem empty_report_noop_witness :
    (([exRowA] : List Row) ≠ []) ∧
      (process_creative_data [] (fun _ => none) = .ok []
        ∧ save_to_csv [] = (false, none)
        ∧ ((save_to_csv [exRowA]).1 = true
            ∧ (save_to_csv [exRowA]).2 = some (sort_values_spend_desc [exRowA]))) :=
  ⟨by decide, empty_report_noop (fun _ => none) [exRowA] (by decide)⟩

end MetaReport
